import Mathlib

/-!
Verification development for the netball scorer offline-first sync layer and
match clock / phase state machine.  The definitions below are shallow
embeddings of the TypeScript source:

* `src/app/lib/local-utils.ts` — clock/phase engine (`phaseDurationMs`, `nextPhase`);
* `src/app/lib/guest-storage.ts` — local game store for the three record
  families (guest, hybrid, registered-local) and the sync queue;
* `src/app/lib/firebase-utils.ts` — remote sync coordinator
  (`loadGame`, `updateGame`, `deleteGame`, `syncPendingChanges`);
* the game page component — phase timer hook and auto-advance effect.

Timestamps are modelled as integers (milliseconds), the browser
localStorage as association lists inside a `Store` record, and the remote
document store as a `RemoteDB` record.  Connectivity and remote-operation
success are explicit boolean/oracle parameters.
-/

namespace Netball

/-- JavaScript arithmetic result: either a concrete integer number of
milliseconds or NaN, as produced by `undefined * 1000` when an array index
is out of range. -/
inductive JSNum where
  | num : Int → JSNum
  | nan : JSNum
  deriving DecidableEq

/-- Match phase: the tagged values `{type:"quarter",index}`,
`{type:"break",index}`, `{type:"fulltime"}` of the source. -/
inductive Phase where
  | quarter : Int → Phase
  | break_ : Int → Phase
  | fulltime : Phase
  deriving DecidableEq

/-- Game settings, immutable after creation. -/
structure Settings where
  numQuarters : Int
  quarterDurationSec : Int
  breakDurationsSec : List Int
  matchType : String
  deriving DecidableEq

/-- JavaScript array indexing `arr[k]`: `undefined` (here `none`) when the
index is negative or out of range. -/
def jsIndex (l : List Int) (k : Int) : Option Int :=
  if k < 0 then none else l.get? k.toNat

/-- `phaseDurationMs` from `src/app/lib/local-utils.ts`.  Null phase or
settings yield 0; a quarter yields `quarterDurationSec * 1000`; a break
yields `breakDurationsSec[index-1] * 1000`, which in JavaScript is
`undefined * 1000 = NaN` when the entry is missing; anything else yields 0. -/
def phaseDurationMs (phase : Option Phase) (settings : Option Settings) : JSNum :=
  match phase, settings with
  | none, _ => .num 0
  | _, none => .num 0
  | some p, some s =>
    match p with
    | .quarter _ => .num (s.quarterDurationSec * 1000)
    | .break_ i =>
      match jsIndex s.breakDurationsSec (i - 1) with
      | some d => .num (d * 1000)
      | none => .nan
    | .fulltime => .num 0

/-- `nextPhase` from `src/app/lib/local-utils.ts`. -/
def nextPhase (phase : Phase) (settings : Settings) : Phase :=
  match phase with
  | .quarter i => if i < settings.numQuarters then .break_ i else .fulltime
  | .break_ i => .quarter (i + 1)
  | .fulltime => .fulltime

/-- Running totals `{A, B}`. -/
structure Scores where
  A : Int
  B : Int
  deriving DecidableEq

/-- The single-step undo record `lastGoal`. -/
structure LastGoal where
  team : String
  previousCentrePass : String
  timestamp : Int
  deriving DecidableEq

/-- Mutable match state (`state` sub-object of a game record).
`phaseStartedAt` is an ISO string or null in the source; it is modelled as
an optional millisecond timestamp. -/
structure GameState where
  phase : Phase
  isRunning : Bool
  phaseStartedAt : Option Int
  elapsedMs : Int
  scores : Scores
  quarterScores : List (Int × Scores)
  centrePass : String
  lastGoal : Option LastGoal
  deriving DecidableEq

/-- A partial `state` object (`Partial` of the state type): `none` marks a
field that is absent from the update object. -/
structure GameStateUpdate where
  phase : Option Phase := none
  isRunning : Option Bool := none
  phaseStartedAt : Option (Option Int) := none
  elapsedMs : Option Int := none
  scores : Option Scores := none
  quarterScores : Option (List (Int × Scores)) := none
  centrePass : Option String := none
  lastGoal : Option (Option LastGoal) := none
  deriving DecidableEq

/-- The one-level deep merge `{ ...game.state, ...updates.state }` used by
every update function of the local store. -/
def mergeState (s : GameState) (u : GameStateUpdate) : GameState :=
  { phase := u.phase.getD s.phase
    isRunning := u.isRunning.getD s.isRunning
    phaseStartedAt := u.phaseStartedAt.getD s.phaseStartedAt
    elapsedMs := u.elapsedMs.getD s.elapsedMs
    scores := u.scores.getD s.scores
    quarterScores := u.quarterScores.getD s.quarterScores
    centrePass := u.centrePass.getD s.centrePass
    lastGoal := u.lastGoal.getD s.lastGoal }

/-- A full state expressed as an update object with every field present
(the shape callers pass when they spread a whole state object). -/
def fullStateUpdate (s : GameState) : GameStateUpdate :=
  { phase := some s.phase
    isRunning := some s.isRunning
    phaseStartedAt := some s.phaseStartedAt
    elapsedMs := some s.elapsedMs
    scores := some s.scores
    quarterScores := some s.quarterScores
    centrePass := some s.centrePass
    lastGoal := some s.lastGoal }

/-- A named team `{ name }`. -/
structure Team where
  name : String
  deriving DecidableEq

/-- Total elapsed time within the current phase as computed by the
`usePhaseTimer` hook: carried `elapsedMs` plus, while running with a start
timestamp, `max(0, now - startedAt)`. -/
def totalElapsed (isRunning : Bool) (phaseStartedAt : Option Int)
    (elapsedMs now : Int) : Int :=
  elapsedMs +
    (if isRunning then
      match phaseStartedAt with
      | some startedAt => max 0 (now - startedAt)
      | none => 0
    else 0)

/-- `remaining = Math.max(0, phaseDurationMs - totalElapsed)`; NaN
propagates. -/
def remainingMs (dur : JSNum) (te : Int) : JSNum :=
  match dur with
  | .num d => .num (max 0 (d - te))
  | .nan => .nan

/-- `isExpired`: remaining strictly equals 0 (`NaN === 0` is false). -/
def isExpired (dur : JSNum) (te : Int) : Bool :=
  match remainingMs dur te with
  | .num r => r == 0
  | .nan => false

/-- Whether the current phase is the final quarter
(`phase.type === "quarter" && phase.index === settings.numQuarters`). -/
def isFinalQuarter (phase : Phase) (settings : Settings) : Bool :=
  match phase with
  | .quarter i => i == settings.numQuarters
  | _ => false

/-- Grace window of the auto-advance effect: 0 ms for the final quarter so
the match ends immediately, 5000 ms otherwise. -/
def graceMs (phase : Phase) (settings : Settings) : Int :=
  if isFinalQuarter phase settings then 0 else 5000

/-- The phase-expiration effect of the game page: fires exactly when the
timer reports expiry, the clock is running with a start timestamp, and
`Date.now() - startedAt >= expectedDuration + graceMs` (a comparison
against NaN is false). -/
def autoAdvanceFires (st : GameState) (s : Settings) (now : Int) : Bool :=
  let dur := phaseDurationMs (some st.phase) (some s)
  match st.phaseStartedAt with
  | some startedAt =>
    isExpired dur (totalElapsed st.isRunning st.phaseStartedAt st.elapsedMs now) &&
      st.isRunning &&
      (match dur with
       | .num d => decide (now - startedAt ≥ d + graceMs st.phase s)
       | .nan => false)
  | none => false

/-- `advancePhase` from the game page: moves to `nextPhase`, auto-starts
the clock on quarter-to-break and break-to-quarter transitions, resets
`elapsedMs`, stamps `phaseStartedAt`. -/
def advancePhaseState (st : GameState) (s : Settings) (now : Int) : GameState :=
  let np := nextPhase st.phase s
  let shouldAutoStart :=
    match st.phase, np with
    | .quarter _, .break_ _ => true
    | .break_ _, .quarter _ => true
    | _, _ => false
  { st with
    phase := np
    isRunning := shouldAutoStart
    elapsedMs := 0
    phaseStartedAt := some now }

/-- Guest-only game record (`GuestGame` interface). -/
structure GuestGame where
  id : String
  shortId : String
  createdAt : Int
  deviceId : String
  teamA : Team
  teamB : Team
  location : String
  sharePublic : Bool
  settings : Settings
  state : GameState
  lastSyncedAt : Option Int := none
  version : Option Nat := none
  firebaseId : Option String := none
  deriving DecidableEq

/-- Hybrid guest game record (`HybridGuestGame` interface):
`firebaseId`, `lastSyncedAt` and `version` are required. -/
structure HybridGuestGame where
  id : String
  shortId : String
  createdAt : Int
  deviceId : String
  teamA : Team
  teamB : Team
  location : String
  sharePublic : Bool
  settings : Settings
  state : GameState
  lastSyncedAt : Int
  version : Nat
  firebaseId : String
  deriving DecidableEq

/-- Registered-user local game record (`LocalGame` interface). -/
structure LocalGame where
  id : String
  shortId : String
  createdAt : Int
  ownerId : String
  ownerEmail : String
  teamA : Team
  teamB : Team
  location : String
  sharePublic : Bool
  settings : Settings
  state : GameState
  lastSyncedAt : Option Int := none
  version : Option Nat := none
  deriving DecidableEq

/-- A game document of the remote store. -/
structure RemoteGame where
  id : String
  shortId : String
  createdAt : Int
  ownerId : String
  ownerEmail : String
  deviceId : Option String := none
  sharePublic : Bool
  teamA : Team
  teamB : Team
  location : String
  settings : Settings
  state : GameState
  lastSyncedAt : Option Int := none
  version : Option Nat := none
  deriving DecidableEq

/-- Summary entry of the guest games list. -/
structure GuestGameSummary where
  id : String
  shortId : String
  teamA : String
  teamB : String
  createdAt : Int
  location : String
  deviceId : String
  deriving DecidableEq

/-- Summary entry of the registered-local games list. -/
structure LocalGameSummary where
  id : String
  shortId : String
  teamA : String
  teamB : String
  createdAt : Int
  location : String
  ownerId : String
  ownerEmail : String
  deriving DecidableEq

/-- Summary entry of the hybrid guest games list. -/
structure HybridGameSummary where
  id : String
  shortId : String
  teamA : String
  teamB : String
  createdAt : Int
  location : String
  deviceId : String
  firebaseId : String
  lastSyncedAt : Int
  version : Nat
  deriving DecidableEq

/-- `Partial` of the coordinator `Game` type, as passed to `updateGame`
and carried in sync-queue items.  `none` marks an absent key. -/
structure GameUpdate where
  id : Option String := none
  shortId : Option String := none
  createdAt : Option Int := none
  ownerId : Option String := none
  ownerEmail : Option String := none
  sharePublic : Option Bool := none
  teamA : Option Team := none
  teamB : Option Team := none
  location : Option String := none
  settings : Option Settings := none
  state : Option GameStateUpdate := none
  lastSyncedAt : Option (Option Int) := none
  version : Option (Option Nat) := none
  deriving DecidableEq

/-- A pending sync-queue entry (`SyncQueueItem` interface). -/
structure SyncQueueItem where
  type : String
  gameId : String
  timestamp : Int
  version : Nat
  gameData : Option RemoteGame := none
  updates : Option GameUpdate := none
  deriving DecidableEq

/-- `Partial` of a guest game. -/
structure GuestGameUpdate where
  id : Option String := none
  shortId : Option String := none
  createdAt : Option Int := none
  deviceId : Option String := none
  teamA : Option Team := none
  teamB : Option Team := none
  location : Option String := none
  sharePublic : Option Bool := none
  settings : Option Settings := none
  state : Option GameStateUpdate := none
  lastSyncedAt : Option (Option Int) := none
  version : Option (Option Nat) := none
  firebaseId : Option (Option String) := none
  deriving DecidableEq

/-- `Partial` of a hybrid guest game. -/
structure HybridGameUpdate where
  id : Option String := none
  shortId : Option String := none
  createdAt : Option Int := none
  deviceId : Option String := none
  teamA : Option Team := none
  teamB : Option Team := none
  location : Option String := none
  sharePublic : Option Bool := none
  settings : Option Settings := none
  state : Option GameStateUpdate := none
  lastSyncedAt : Option Int := none
  version : Option Nat := none
  firebaseId : Option String := none
  deriving DecidableEq

/-- `Partial` of a registered-local game. -/
structure LocalGameUpdate where
  id : Option String := none
  shortId : Option String := none
  createdAt : Option Int := none
  ownerId : Option String := none
  ownerEmail : Option String := none
  teamA : Option Team := none
  teamB : Option Team := none
  location : Option String := none
  sharePublic : Option Bool := none
  settings : Option Settings := none
  state : Option GameStateUpdate := none
  lastSyncedAt : Option (Option Int) := none
  version : Option (Option Nat) := none
  deriving DecidableEq

/-- `{ ...game, ...updates, state: updates.state ? {...} : game.state }`
for guest games: shallow merge of top-level fields, one-level deep merge of
`state`. -/
def applyGuestUpdate (g : GuestGame) (u : GuestGameUpdate) : GuestGame :=
  { id := u.id.getD g.id
    shortId := u.shortId.getD g.shortId
    createdAt := u.createdAt.getD g.createdAt
    deviceId := u.deviceId.getD g.deviceId
    teamA := u.teamA.getD g.teamA
    teamB := u.teamB.getD g.teamB
    location := u.location.getD g.location
    sharePublic := u.sharePublic.getD g.sharePublic
    settings := u.settings.getD g.settings
    state :=
      match u.state with
      | some su => mergeState g.state su
      | none => g.state
    lastSyncedAt := u.lastSyncedAt.getD g.lastSyncedAt
    version := u.version.getD g.version
    firebaseId := u.firebaseId.getD g.firebaseId }

/-- Merge step of `updateLocalGame`: same shape as the guest one. -/
def applyLocalUpdate (g : LocalGame) (u : LocalGameUpdate) : LocalGame :=
  { id := u.id.getD g.id
    shortId := u.shortId.getD g.shortId
    createdAt := u.createdAt.getD g.createdAt
    ownerId := u.ownerId.getD g.ownerId
    ownerEmail := u.ownerEmail.getD g.ownerEmail
    teamA := u.teamA.getD g.teamA
    teamB := u.teamB.getD g.teamB
    location := u.location.getD g.location
    sharePublic := u.sharePublic.getD g.sharePublic
    settings := u.settings.getD g.settings
    state :=
      match u.state with
      | some su => mergeState g.state su
      | none => g.state
    lastSyncedAt := u.lastSyncedAt.getD g.lastSyncedAt
    version := u.version.getD g.version }

/-- Merge step of `updateHybridGuestGame`.  After spreading the update the
source unconditionally overrides `version := (game.version || 1) + 1` and
`lastSyncedAt := Date.now()`, so the version and lastSyncedAt fields of the
update object are ignored. -/
def applyHybridUpdate (g : HybridGuestGame) (u : HybridGameUpdate) (now : Int) :
    HybridGuestGame :=
  { id := u.id.getD g.id
    shortId := u.shortId.getD g.shortId
    createdAt := u.createdAt.getD g.createdAt
    deviceId := u.deviceId.getD g.deviceId
    teamA := u.teamA.getD g.teamA
    teamB := u.teamB.getD g.teamB
    location := u.location.getD g.location
    sharePublic := u.sharePublic.getD g.sharePublic
    settings := u.settings.getD g.settings
    state :=
      match u.state with
      | some su => mergeState g.state su
      | none => g.state
    lastSyncedAt := now
    version := (if g.version = 0 then 1 else g.version) + 1
    firebaseId := u.firebaseId.getD g.firebaseId }

/-- Firestore `updateDoc(ref, { ...updates, lastSyncedAt, version })`:
top-level fields of the update replace those of the document.  Callers
always pass a complete `state` object, for which the one-level merge below
coincides with replacement. -/
def applyRemoteUpdate (r : RemoteGame) (u : GameUpdate) (newVersion : Nat)
    (now : Int) : RemoteGame :=
  { id := u.id.getD r.id
    shortId := u.shortId.getD r.shortId
    createdAt := u.createdAt.getD r.createdAt
    ownerId := u.ownerId.getD r.ownerId
    ownerEmail := u.ownerEmail.getD r.ownerEmail
    deviceId := r.deviceId
    sharePublic := u.sharePublic.getD r.sharePublic
    teamA := u.teamA.getD r.teamA
    teamB := u.teamB.getD r.teamB
    location := u.location.getD r.location
    settings := u.settings.getD r.settings
    state :=
      match u.state with
      | some su => mergeState r.state su
      | none => r.state
    lastSyncedAt := some now
    version := some newVersion }

/-- On-device storage: the three record families, their summary lists, and
the sync queue.  `deviceId` is the persisted `guest_device_id`. -/
structure Store where
  deviceId : String
  guestGames : List (String × GuestGame)
  guestList : List GuestGameSummary
  localGames : List (String × LocalGame)
  localList : List LocalGameSummary
  hybridGames : List (String × HybridGuestGame)
  hybridList : List HybridGameSummary
  syncQueue : List SyncQueueItem
  deriving DecidableEq

/-- The remote document store (the `games` collection). -/
structure RemoteDB where
  games : List (String × RemoteGame)
  deriving DecidableEq

/-- `localStorage.setItem`: bind a key, replacing any previous binding. -/
def setKey {α : Type} (k : String) (v : α) (m : List (String × α)) :
    List (String × α) :=
  (k, v) :: m.filter (fun p => p.1 != k)

/-- `localStorage.removeItem`. -/
def removeKey {α : Type} (k : String) (m : List (String × α)) :
    List (String × α) :=
  m.filter (fun p => p.1 != k)

/-- `getGuestGamesList`: parses the stored list and filters it to the
current device. -/
def getGuestGamesList (st : Store) : List GuestGameSummary :=
  st.guestList.filter (fun g => g.deviceId == st.deviceId)

/-- `getLocalGamesList`: returns the stored list unfiltered. -/
def getLocalGamesList (st : Store) : List LocalGameSummary :=
  st.localList

/-- `getHybridGuestGamesList`: parses the stored list and filters it to the
current device. -/
def getHybridGuestGamesList (st : Store) : List HybridGameSummary :=
  st.hybridList.filter (fun g => g.deviceId == st.deviceId)

/-- Summary row built by `saveGuestGame`. -/
def guestSummaryOf (g : GuestGame) : GuestGameSummary :=
  { id := g.id
    shortId := g.shortId
    teamA := g.teamA.name
    teamB := g.teamB.name
    createdAt := g.createdAt
    location := g.location
    deviceId := g.deviceId }

/-- Replace the first summary entry with a matching id. -/
def replaceFirstGuest (l : List GuestGameSummary) (s : GuestGameSummary) :
    List GuestGameSummary :=
  match l with
  | [] => []
  | x :: xs => if x.id == s.id then s :: xs else x :: replaceFirstGuest xs s

/-- `saveGuestGame`: stamp the device id, upsert the full record, upsert
the summary list entry (replace in place or unshift), cap the list at 50. -/
def saveGuestGame (st : Store) (game : GuestGame) : Store :=
  let gameWithDevice := { game with deviceId := st.deviceId }
  let gamesList := getGuestGamesList st
  let summary := guestSummaryOf gameWithDevice
  let gamesList' :=
    if gamesList.any (fun g => g.id == game.id) then
      replaceFirstGuest gamesList summary
    else
      summary :: gamesList
  { st with
    guestGames := setKey game.id gameWithDevice st.guestGames
    guestList := gamesList'.take 50 }

/-- `loadGuestGame`: a stored record whose device id does not match the
current device is treated as not found. -/
def loadGuestGame (st : Store) (gameId : String) : Option GuestGame :=
  match st.guestGames.lookup gameId with
  | some game => if game.deviceId == st.deviceId then some game else none
  | none => none

/-- `updateGuestGame`: load, merge, save, return the merged record, or
none when absent. -/
def updateGuestGame (st : Store) (gameId : String) (updates : GuestGameUpdate) :
    Store × Option GuestGame :=
  match loadGuestGame st gameId with
  | some game =>
    let updatedGame := applyGuestUpdate game updates
    (saveGuestGame st updatedGame, some updatedGame)
  | none => (st, none)

/-- `deleteGuestGame`: drop the summary entry and the full record. -/
def deleteGuestGame (st : Store) (gameId : String) : Store × Bool :=
  let filtered := (getGuestGamesList st).filter (fun g => g.id != gameId)
  ({ st with
      guestList := filtered
      guestGames := removeKey gameId st.guestGames },
    true)

/-- Summary row built by `saveLocalGame`. -/
def localSummaryOf (g : LocalGame) : LocalGameSummary :=
  { id := g.id
    shortId := g.shortId
    teamA := g.teamA.name
    teamB := g.teamB.name
    createdAt := g.createdAt
    location := g.location
    ownerId := g.ownerId
    ownerEmail := g.ownerEmail }

/-- Replace the first summary entry with a matching id. -/
def replaceFirstLocal (l : List LocalGameSummary) (s : LocalGameSummary) :
    List LocalGameSummary :=
  match l with
  | [] => []
  | x :: xs => if x.id == s.id then s :: xs else x :: replaceFirstLocal xs s

/-- `saveLocalGame`: upsert the full record and the summary list entry,
cap the list at 100. -/
def saveLocalGame (st : Store) (game : LocalGame) : Store :=
  let gamesList := getLocalGamesList st
  let summary := localSummaryOf game
  let gamesList' :=
    if gamesList.any (fun g => g.id == game.id) then
      replaceFirstLocal gamesList summary
    else
      summary :: gamesList
  { st with
    localGames := setKey game.id game st.localGames
    localList := gamesList'.take 100 }

/-- `loadLocalGame`: no device check for the registered-local family. -/
def loadLocalGame (st : Store) (gameId : String) : Option LocalGame :=
  st.localGames.lookup gameId

/-- `updateLocalGame`: load, merge, save, return the merged record, or
none when absent. -/
def updateLocalGame (st : Store) (gameId : String) (updates : LocalGameUpdate) :
    Store × Option LocalGame :=
  match loadLocalGame st gameId with
  | some game =>
    let updatedGame := applyLocalUpdate game updates
    (saveLocalGame st updatedGame, some updatedGame)
  | none => (st, none)

/-- `deleteLocalGame`: drop the summary entry and the full record. -/
def deleteLocalGame (st : Store) (gameId : String) : Store × Bool :=
  let filtered := (getLocalGamesList st).filter (fun g => g.id != gameId)
  ({ st with
      localList := filtered
      localGames := removeKey gameId st.localGames },
    true)

/-- Summary row built by `saveHybridGuestGame`. -/
def hybridSummaryOf (g : HybridGuestGame) : HybridGameSummary :=
  { id := g.id
    shortId := g.shortId
    teamA := g.teamA.name
    teamB := g.teamB.name
    createdAt := g.createdAt
    location := g.location
    deviceId := g.deviceId
    firebaseId := g.firebaseId
    lastSyncedAt := g.lastSyncedAt
    version := g.version }

/-- Replace the first summary entry with a matching id. -/
def replaceFirstHybrid (l : List HybridGameSummary) (s : HybridGameSummary) :
    List HybridGameSummary :=
  match l with
  | [] => []
  | x :: xs => if x.id == s.id then s :: xs else x :: replaceFirstHybrid xs s

/-- `saveHybridGuestGame`: stamp the device id, upsert the full record and
the summary list entry, cap the list at 50. -/
def saveHybridGuestGame (st : Store) (game : HybridGuestGame) : Store :=
  let gameWithDevice := { game with deviceId := st.deviceId }
  let gamesList := getHybridGuestGamesList st
  let summary := hybridSummaryOf gameWithDevice
  let gamesList' :=
    if gamesList.any (fun g => g.id == game.id) then
      replaceFirstHybrid gamesList summary
    else
      summary :: gamesList
  { st with
    hybridGames := setKey game.id gameWithDevice st.hybridGames
    hybridList := gamesList'.take 50 }

/-- `loadHybridGuestGame`: device-id mismatch is treated as not found. -/
def loadHybridGuestGame (st : Store) (gameId : String) : Option HybridGuestGame :=
  match st.hybridGames.lookup gameId with
  | some game => if game.deviceId == st.deviceId then some game else none
  | none => none

/-- `updateHybridGuestGame`: load, merge (the merge itself bumps the
version and stamps `lastSyncedAt`), save, return the merged record.  The
defensive checks that `state` is a valid object are vacuous in this typed
embedding. -/
def updateHybridGuestGame (st : Store) (gameId : String)
    (updates : HybridGameUpdate) (now : Int) : Store × Option HybridGuestGame :=
  match loadHybridGuestGame st gameId with
  | some game =>
    let updatedGame := applyHybridUpdate game updates now
    (saveHybridGuestGame st updatedGame, some updatedGame)
  | none => (st, none)

/-- `deleteHybridGuestGame`: drop the summary entry and the full record. -/
def deleteHybridGuestGame (st : Store) (gameId : String) : Store × Bool :=
  let filtered := (getHybridGuestGamesList st).filter (fun g => g.id != gameId)
  ({ st with
      hybridList := filtered
      hybridGames := removeKey gameId st.hybridGames },
    true)

/-- `convertToHybridGuestGame`: spread the guest game, attach the Firebase
id, stamp `lastSyncedAt := Date.now()` and set `version := 1`
unconditionally (`sharePublic || false` collapses to `sharePublic`). -/
def convertToHybridGuestGame (guestGame : GuestGame) (firebaseId : String)
    (now : Int) : HybridGuestGame :=
  { id := guestGame.id
    shortId := guestGame.shortId
    createdAt := guestGame.createdAt
    deviceId := guestGame.deviceId
    teamA := guestGame.teamA
    teamB := guestGame.teamB
    location := guestGame.location
    sharePublic := guestGame.sharePublic
    settings := guestGame.settings
    state := guestGame.state
    lastSyncedAt := now
    version := 1
    firebaseId := firebaseId }

/-- `upgradeGuestGameToHybrid`: load the guest record, convert it, save
the hybrid record, delete the guest record. -/
def upgradeGuestGameToHybrid (st : Store) (gameId firebaseId : String)
    (now : Int) : Store × Bool :=
  match loadGuestGame st gameId with
  | some guestGame =>
    let hybridGame := convertToHybridGuestGame guestGame firebaseId now
    let st1 := saveHybridGuestGame st hybridGame
    ((deleteGuestGame st1 gameId).1, true)
  | none => (st, false)

/-- Remove every queued item for a given game id
(`queue.filter(q => q.gameId !== item.gameId)`). -/
def filterOutGame (q : List SyncQueueItem) (gameId : String) :
    List SyncQueueItem :=
  q.filter (fun it => it.gameId != gameId)

/-- Comparator of the queue sort: ascending timestamps.  JavaScript
`Array.prototype.sort` is stable, modelled by `List.mergeSort`. -/
def tsLe (a b : SyncQueueItem) : Bool :=
  decide (a.timestamp ≤ b.timestamp)

/-- `saveSyncQueue` (the enqueue operation): de-duplicate by game id,
push, sort ascending by timestamp, cap at 100 dropping the oldest
(`splice(0, length - 100)` removes from the front of the sorted list). -/
def saveSyncQueue (st : Store) (item : SyncQueueItem) : Store :=
  let filteredQueue := filterOutGame st.syncQueue item.gameId
  let sorted := (filteredQueue ++ [item]).mergeSort tsLe
  let capped :=
    if sorted.length > 100 then sorted.drop (sorted.length - 100) else sorted
  { st with syncQueue := capped }

/-- `clearSyncQueue`: removes the whole persisted queue. -/
def clearSyncQueue (st : Store) : Store :=
  { st with syncQueue := [] }

/-- The per-item loop of `syncPendingChanges`.  `ok` is the
remote-operation oracle: when it reports success the remote document is
written and the local record is stamped with `lastSyncedAt`/`version`;
when it reports failure the item is skipped (`continue`). -/
def syncLoop (ok : SyncQueueItem → Bool) (now : Int) :
    List SyncQueueItem → Store → RemoteDB → Store × RemoteDB
  | [], st, db => (st, db)
  | change :: rest, st, db =>
    if ok change then
      let db' : RemoteDB :=
        if change.type == "update" then
          match db.games.lookup change.gameId, change.updates with
          | some r, some u =>
            ⟨setKey change.gameId
              (applyRemoteUpdate r u (change.version + 1) now) db.games⟩
          | _, _ => db
        else if change.type == "create" then
          match change.gameData with
          | some g =>
            ⟨setKey change.gameId
              { g with lastSyncedAt := some now, version := some 1 } db.games⟩
          | none => db
        else db
      let st' :=
        (updateLocalGame st change.gameId
          { lastSyncedAt := some (some now)
            version := some (some (change.version + 1)) }).1
      syncLoop ok now rest st' db'
    else
      syncLoop ok now rest st db

/-- `syncPendingChanges` (the drain): returns unchanged for a missing or
anonymous user or an empty queue; otherwise runs the loop and then calls
`clearSyncQueue()` unconditionally. -/
def syncPendingChanges (registered : Bool) (ok : SyncQueueItem → Bool)
    (now : Int) (st : Store) (db : RemoteDB) : Store × RemoteDB :=
  if !registered then (st, db)
  else if st.syncQueue.length == 0 then (st, db)
  else
    let res := syncLoop ok now st.syncQueue st db
    (clearSyncQueue res.1, res.2)

/-- The record a load returns: the remote document, the local registered
record, a hybrid guest record or a plain guest record (the source converts
each to the common `Game` shape). -/
inductive LoadedGame where
  | fromRemote : RemoteGame → LoadedGame
  | fromLocal : LocalGame → LoadedGame
  | fromHybrid : HybridGuestGame → LoadedGame
  | fromGuest : GuestGame → LoadedGame
  deriving DecidableEq

/-- `firebaseGame.version && firebaseGame.version > (localGame.version || 0)`:
the remote record wins only when it carries a truthy version strictly
greater than the cached local version (undefined treated as 0). -/
def fbNewer (r : RemoteGame) (localVersion : Option Nat) : Bool :=
  match r.version with
  | some rv => rv != 0 && rv > localVersion.getD 0
  | none => false

/-- `{ ...firebaseGame, createdAt: Date.now(), lastSyncedAt: Date.now() }`
as a full local update object: every top-level field present, so the merge
in `updateLocalGame` replaces the whole record. -/
def remoteToLocalOverwrite (r : RemoteGame) (now : Int) : LocalGameUpdate :=
  { id := some r.id
    shortId := some r.shortId
    createdAt := some now
    ownerId := some r.ownerId
    ownerEmail := some r.ownerEmail
    teamA := some r.teamA
    teamB := some r.teamB
    location := some r.location
    sharePublic := some r.sharePublic
    settings := some r.settings
    state := some (fullStateUpdate r.state)
    lastSyncedAt := some (some now)
    version := some r.version }

/-- The remote document saved as a fresh local record when the game was
not found locally. -/
def remoteAsLocal (r : RemoteGame) (now : Int) : LocalGame :=
  { id := r.id
    shortId := r.shortId
    createdAt := now
    ownerId := r.ownerId
    ownerEmail := r.ownerEmail
    teamA := r.teamA
    teamB := r.teamB
    location := r.location
    sharePublic := r.sharePublic
    settings := r.settings
    state := r.state
    lastSyncedAt := some now
    version := r.version }

/-- `loadGame` of the coordinator.  Anonymous users read hybrid then guest
local storage with no remote merge.  Registered users read the local
record and, when connected and a remote document exists, apply it only if
`fbNewer`; a registered game missing locally is fetched remotely and
cached. -/
def loadGame (isAnonymous : Bool) (st : Store) (db : RemoteDB)
    (gameId : String) (connected : Bool) (now : Int) :
    Store × Option LoadedGame :=
  if isAnonymous then
    match loadHybridGuestGame st gameId with
    | some hybridGame => (st, some (.fromHybrid hybridGame))
    | none =>
      match loadGuestGame st gameId with
      | some guestGame => (st, some (.fromGuest guestGame))
      | none => (st, none)
  else
    match loadLocalGame st gameId with
    | some localGame =>
      if connected then
        match db.games.lookup gameId with
        | some firebaseGame =>
          if fbNewer firebaseGame localGame.version then
            ((updateLocalGame st gameId (remoteToLocalOverwrite firebaseGame now)).1,
              some (.fromRemote firebaseGame))
          else
            (st, some (.fromLocal localGame))
        | none => (st, some (.fromLocal localGame))
      else (st, some (.fromLocal localGame))
    | none =>
      if connected then
        match db.games.lookup gameId with
        | some firebaseGame =>
          (saveLocalGame st (remoteAsLocal firebaseGame now),
            some (.fromRemote firebaseGame))
        | none => (st, none)
      else (st, none)

/-- The value `updateGame` returns (converted to the common shape in the
source). -/
inductive UpdatedGame where
  | hybrid : HybridGuestGame → UpdatedGame
  | guest : GuestGame → UpdatedGame
  | registered : LocalGame → UpdatedGame
  deriving DecidableEq

/-- Destructuring `const { lastSyncedAt, version, sharePublic, ...guestUpdates }`
followed by `{ ...guestUpdates, version: newVersion, lastSyncedAt: Date.now(), createdAt: ... }`.
The JavaScript source also writes an explicitly-undefined `createdAt` key
when `updates.createdAt` is absent, clobbering the stored `createdAt`;
that quirk is not modelled (no claim mentions `createdAt`). -/
def toHybridUpdate (u : GameUpdate) (newVersion : Nat) (now : Int) :
    HybridGameUpdate :=
  { id := u.id
    shortId := u.shortId
    createdAt := u.createdAt
    deviceId := none
    teamA := u.teamA
    teamB := u.teamB
    location := u.location
    sharePublic := none
    settings := u.settings
    state := u.state
    lastSyncedAt := some now
    version := some newVersion
    firebaseId := none }

/-- Conversion of coordinator updates for the plain guest path: the
`lastSyncedAt`, `version` and `sharePublic` keys are destructured away. -/
def toGuestUpdate (u : GameUpdate) : GuestGameUpdate :=
  { id := u.id
    shortId := u.shortId
    createdAt := u.createdAt
    deviceId := none
    teamA := u.teamA
    teamB := u.teamB
    location := u.location
    sharePublic := none
    settings := u.settings
    state := u.state
    lastSyncedAt := none
    version := none
    firebaseId := none }

/-- Conversion of coordinator updates for the registered path: only
`lastSyncedAt` is destructured away, then `version` and `lastSyncedAt` are
set explicitly. -/
def toLocalUpdate (u : GameUpdate) (newVersion : Nat) (now : Int) :
    LocalGameUpdate :=
  { id := u.id
    shortId := u.shortId
    createdAt := u.createdAt
    ownerId := u.ownerId
    ownerEmail := u.ownerEmail
    teamA := u.teamA
    teamB := u.teamB
    location := u.location
    sharePublic := u.sharePublic
    settings := u.settings
    state := u.state
    lastSyncedAt := some (some now)
    version := some (some newVersion) }

/-- `updateGame` of the coordinator.  Hybrid path: bump the version, write
locally (`updateHybridGuestGame`), then either write the remote document
and stamp a sync confirmation locally (which runs `updateHybridGuestGame`
again), or enqueue the update.  Guest path: local merge only.  Registered
path: write locally, then remote write or enqueue.  A remote write
succeeds only when connected and the document exists (`updateDoc` rejects
otherwise). -/
def updateGame (isAnonymous : Bool) (st : Store) (db : RemoteDB)
    (gameId : String) (updates : GameUpdate) (connected : Bool) (now : Int) :
    Store × RemoteDB × Option UpdatedGame :=
  if isAnonymous then
    match loadHybridGuestGame st gameId with
    | some hybridGuestGame =>
      let newVersion :=
        (if hybridGuestGame.version = 0 then 1 else hybridGuestGame.version) + 1
      let guestUpdateData := toHybridUpdate updates newVersion now
      match updateHybridGuestGame st gameId guestUpdateData now with
      | (st1, some updatedHybridGame) =>
        match connected, db.games.lookup gameId with
        | true, some r =>
          let db' : RemoteDB :=
            ⟨setKey gameId (applyRemoteUpdate r updates newVersion now) db.games⟩
          let st2 :=
            (updateHybridGuestGame st1 gameId { lastSyncedAt := some now } now).1
          (st2, db', some (.hybrid updatedHybridGame))
        | _, _ =>
          let st2 := saveSyncQueue st1
            { type := "update"
              gameId := gameId
              timestamp := now
              version := newVersion
              gameData := none
              updates := some updates }
          (st2, db, some (.hybrid updatedHybridGame))
      | (st1, none) => (st1, db, none)
    | none =>
      match loadGuestGame st gameId with
      | some _ =>
        match updateGuestGame st gameId (toGuestUpdate updates) with
        | (st1, some updatedGame) => (st1, db, some (.guest updatedGame))
        | (st1, none) => (st1, db, none)
      | none => (st, db, none)
  else
    match loadLocalGame st gameId with
    | some localGame =>
      let newVersion := localGame.version.getD 0 + 1
      match updateLocalGame st gameId (toLocalUpdate updates newVersion now) with
      | (st1, some updatedLocalGame) =>
        match connected, db.games.lookup gameId with
        | true, some r =>
          let db' : RemoteDB :=
            ⟨setKey gameId (applyRemoteUpdate r updates newVersion now) db.games⟩
          (st1, db', some (.registered updatedLocalGame))
        | _, _ =>
          let st2 := saveSyncQueue st1
            { type := "update"
              gameId := gameId
              timestamp := now
              version := newVersion
              gameData := none
              updates := some updates }
          (st2, db, some (.registered updatedLocalGame))
      | (st1, none) => (st1, db, none)
    | none => (st, db, none)

/-- Owner id of a loaded game as the delete path reads it. -/
def loadedOwnerId (g : LoadedGame) : String :=
  match g with
  | .fromRemote r => r.ownerId
  | .fromLocal l => l.ownerId
  | .fromHybrid h => String.append "guest_" h.deviceId
  | .fromGuest _ => "guest"

/-- `deleteGame` of the coordinator.  Anonymous path: only the plain guest
store is consulted — a hybrid guest game is found by neither branch, so
nothing is deleted.  Registered path: load, check ownership, delete the
remote document, then the local record; a failing remote delete (offline)
aborts with false before the local delete. -/
def deleteGame (hasUser isAnonymous : Bool) (uid : String) (st : Store)
    (db : RemoteDB) (gameId : String) (connected : Bool) (now : Int) :
    Store × RemoteDB × Bool :=
  if !hasUser then (st, db, false)
  else if isAnonymous then
    match loadGuestGame st gameId with
    | some _ =>
      let res := deleteGuestGame st gameId
      (res.1, db, res.2)
    | none => (st, db, false)
  else
    let res := loadGame false st db gameId connected now
    match res.2 with
    | none => (res.1, db, false)
    | some g =>
      if loadedOwnerId g != uid then (res.1, db, false)
      else if connected then
        let db' : RemoteDB := ⟨removeKey gameId db.games⟩
        ((deleteLocalGame res.1 gameId).1, db', true)
      else
        (res.1, db, false)

/-- Sample settings: four 600 second quarters, three 60 second breaks. -/
def sampleSettings : Settings :=
  { numQuarters := 4
    quarterDurationSec := 600
    breakDurationsSec := [60, 60, 60]
    matchType := "standard" }

/-- Sample zero scores. -/
def sampleScores : Scores := { A := 0, B := 0 }

/-- Sample freshly-created match state. -/
def sampleState : GameState :=
  { phase := .quarter 1
    isRunning := false
    phaseStartedAt := none
    elapsedMs := 0
    scores := sampleScores
    quarterScores := [(1, sampleScores)]
    centrePass := "A"
    lastGoal := none }

/-- Sample hybrid guest game at version 5, owned by device dev. -/
def sampleHybrid : HybridGuestGame :=
  { id := "g1"
    shortId := "S1"
    createdAt := 0
    deviceId := "dev"
    teamA := { name := "Alpha" }
    teamB := { name := "Beta" }
    location := "court"
    sharePublic := true
    settings := sampleSettings
    state := sampleState
    lastSyncedAt := 0
    version := 5
    firebaseId := "g1" }

/-- Sample remote document mirroring `sampleHybrid`. -/
def sampleRemote : RemoteGame :=
  { id := "g1"
    shortId := "S1"
    createdAt := 0
    ownerId := "guest_dev"
    ownerEmail := "guest@local"
    deviceId := some "dev"
    sharePublic := true
    teamA := { name := "Alpha" }
    teamB := { name := "Beta" }
    location := "court"
    settings := sampleSettings
    state := sampleState
    lastSyncedAt := some 0
    version := some 5 }

/-- Sample store holding only the hybrid game on device dev. -/
def sampleHybridStore : Store :=
  { deviceId := "dev"
    guestGames := []
    guestList := []
    localGames := []
    localList := []
    hybridGames := [("g1", sampleHybrid)]
    hybridList := [hybridSummaryOf sampleHybrid]
    syncQueue := [] }

/-- Sample remote store holding the mirrored document. -/
def sampleRemoteDB : RemoteDB := ⟨[("g1", sampleRemote)]⟩

/-- Sample plain guest game at version 9 on device dev. -/
def sampleGuest : GuestGame :=
  { id := "g2"
    shortId := "S2"
    createdAt := 0
    deviceId := "dev"
    teamA := { name := "Alpha" }
    teamB := { name := "Beta" }
    location := "court"
    sharePublic := false
    settings := sampleSettings
    state := sampleState
    lastSyncedAt := none
    version := some 9
    firebaseId := none }

/-- Sample store holding only the plain guest game. -/
def sampleGuestStore : Store :=
  { deviceId := "dev"
    guestGames := [("g2", sampleGuest)]
    guestList := [guestSummaryOf sampleGuest]
    localGames := []
    localList := []
    hybridGames := []
    hybridList := []
    syncQueue := [] }

/-- A running first-quarter state 604 seconds after its start. -/
def graceState : GameState :=
  { phase := .quarter 1
    isRunning := true
    phaseStartedAt := some (-604000)
    elapsedMs := 0
    scores := sampleScores
    quarterScores := [(1, sampleScores)]
    centrePass := "A"
    lastGoal := none }

/-- An update object with no keys. -/
def emptyGameUpdate : GameUpdate := {}

/-- Sample registered-local game at version 5. -/
def sampleLocal : LocalGame :=
  { id := "g3"
    shortId := "S3"
    createdAt := 0
    ownerId := "u1"
    ownerEmail := "u1@mail"
    teamA := { name := "Alpha" }
    teamB := { name := "Beta" }
    location := "court"
    sharePublic := false
    settings := sampleSettings
    state := sampleState
    lastSyncedAt := some 0
    version := some 5 }

/-- Sample store holding only the registered-local game. -/
def sampleLocalStore : Store :=
  { deviceId := "dev"
    guestGames := []
    guestList := []
    localGames := [("g3", sampleLocal)]
    localList := [localSummaryOf sampleLocal]
    hybridGames := []
    hybridList := []
    syncQueue := [] }

/-- Sample remote document for the registered game, also at version 5. -/
def sampleRemoteEq : RemoteGame :=
  { id := "g3"
    shortId := "S3"
    createdAt := 0
    ownerId := "u1"
    ownerEmail := "u1@mail"
    deviceId := none
    sharePublic := false
    teamA := { name := "Alpha" }
    teamB := { name := "Beta" }
    location := "court"
    settings := sampleSettings
    state := sampleState
    lastSyncedAt := some 0
    version := some 5 }

/-- Sample remote store for the registered game. -/
def sampleRemoteDBEq : RemoteDB := ⟨[("g3", sampleRemoteEq)]⟩

/-- Sample pending update queue item. -/
def sampleQueueItem : SyncQueueItem :=
  { type := "update"
    gameId := "g1"
    timestamp := 1
    version := 3
    gameData := none
    updates := some emptyGameUpdate }

/-- Store with an empty queue and no games. -/
def emptyStore : Store :=
  { deviceId := "dev"
    guestGames := []
    guestList := []
    localGames := []
    localList := []
    hybridGames := []
    hybridList := []
    syncQueue := [] }

/-- Store whose queue holds exactly the sample item. -/
def sampleQueueStore : Store :=
  { emptyStore with syncQueue := [sampleQueueItem] }

/-- Empty remote store. -/
def emptyRemoteDB : RemoteDB := ⟨[]⟩

/-- A partial update carrying only new scores inside state. -/
def scoresOnlyUpdate : GuestGameUpdate :=
  { state := some { scores := some { A := 5, B := 3 } } }

/-- An element returned by JavaScript array indexing is a member of the
array. -/
theorem jsIndex_mem {l : List Int} {k d : Int} (h : jsIndex l k = some d) :
    d ∈ l := by
  unfold jsIndex at h
  split at h
  · exact absurd h (by simp)
  · exact List.get?_mem h

/-- Looking up a key just bound by setKey returns the bound value. -/
theorem lookup_setKey {α : Type} (k : String) (v : α) (m : List (String × α)) :
    (setKey k v m).lookup k = some v := by
  simp [setKey, List.lookup]

/-- Claim C6: nextPhase maps a quarter with index below numQuarters to the
break with the same index and to fulltime otherwise (in particular the
final quarter maps to fulltime), maps a break with index i to the quarter
with index i plus one, and fixes fulltime. -/
theorem nextPhase_cases (i : Int) (s : Settings) :
    nextPhase (.quarter i) s =
      (if i < s.numQuarters then .break_ i else .fulltime) ∧
    nextPhase (.quarter s.numQuarters) s = .fulltime ∧
    nextPhase (.break_ i) s = .quarter (i + 1) ∧
    nextPhase .fulltime s = .fulltime := by
  refine ⟨rfl, ?_, rfl, rfl⟩
  simp [nextPhase]

/-- Claim C7 counterexample: for a break phase whose index has no
corresponding break-duration entry, phaseDurationMs returns NaN, not 0. -/
theorem phaseDurationMs_nan_counterexample :
    phaseDurationMs (some (.break_ 2))
        (some { numQuarters := 2
                quarterDurationSec := 600
                breakDurationsSec := [60]
                matchType := "standard" }) = .nan ∧
    JSNum.nan ≠ JSNum.num 0 := by
  exact ⟨rfl, by decide⟩

/-- Claim C7 (amended): phaseDurationMs is total; it returns 0 for a
missing phase or missing settings and for fulltime, the quarter duration
in ms for quarters, the indexed break duration in ms for breaks whose
index has an entry, and NaN — not 0 — for a break index with no entry;
every numeric result is non-negative when the configured durations are
non-negative. -/
theorem phaseDurationMs_characterization (s : Settings)
    (hq : 0 ≤ s.quarterDurationSec)
    (hb : ∀ d ∈ s.breakDurationsSec, 0 ≤ d) :
    (∀ so, phaseDurationMs none so = .num 0) ∧
    (∀ po, phaseDurationMs po none = .num 0) ∧
    (∀ i, phaseDurationMs (some (.quarter i)) (some s) =
      .num (s.quarterDurationSec * 1000)) ∧
    phaseDurationMs (some .fulltime) (some s) = .num 0 ∧
    (∀ i d, jsIndex s.breakDurationsSec (i - 1) = some d →
      phaseDurationMs (some (.break_ i)) (some s) = .num (d * 1000)) ∧
    (∀ i, jsIndex s.breakDurationsSec (i - 1) = none →
      phaseDurationMs (some (.break_ i)) (some s) = .nan) ∧
    (∀ p n, phaseDurationMs (some p) (some s) = .num n → 0 ≤ n) := by
  refine ⟨fun so => by cases so <;> rfl, fun po => by cases po <;> rfl,
    fun _ => rfl, rfl, ?_, ?_, ?_⟩
  · intro i d h
    simp [phaseDurationMs, h]
  · intro i h
    simp [phaseDurationMs, h]
  · intro p n h
    cases p with
    | quarter i =>
      simp only [phaseDurationMs, JSNum.num.injEq] at h
      subst h
      exact mul_nonneg hq (by norm_num)
    | break_ i =>
      simp only [phaseDurationMs] at h
      cases hj : jsIndex s.breakDurationsSec (i - 1) with
      | some d =>
        rw [hj] at h
        simp only [JSNum.num.injEq] at h
        subst h
        exact mul_nonneg (hb d (jsIndex_mem hj)) (by norm_num)
      | none =>
        rw [hj] at h
        exact absurd h (by simp)
    | fulltime =>
      simp only [phaseDurationMs, JSNum.num.injEq] at h
      subst h
      exact le_refl 0

/-- Witness for the amended C7 theorem at concrete settings. -/
theorem phaseDurationMs_characterization_w :
    phaseDurationMs (some (.quarter 1)) (some sampleSettings) =
      .num (sampleSettings.quarterDurationSec * 1000) :=
  (phaseDurationMs_characterization sampleSettings (by decide)
    (by decide)).2.2.1 1

/-- Claim C10: converting a guest game to a hybrid guest game sets the
resulting version to exactly 1 regardless of the input version, stamps
lastSyncedAt with the conversion time and attaches the Firebase id; the
upgrade routine stores exactly that converted record (with the device id
stamped) in the hybrid store. -/
theorem convert_to_hybrid_resets_version (g : GuestGame) (fid : String)
    (now : Int) :
    (convertToHybridGuestGame g fid now).version = 1 ∧
    (convertToHybridGuestGame g fid now).lastSyncedAt = now ∧
    (convertToHybridGuestGame g fid now).firebaseId = fid ∧
    (∀ (st : Store) (gameId : String) (g0 : GuestGame),
      loadGuestGame st gameId = some g0 →
      ((upgradeGuestGameToHybrid st gameId fid now).1.hybridGames.lookup g0.id) =
        some { convertToHybridGuestGame g0 fid now with deviceId := st.deviceId }) := by
  refine ⟨rfl, rfl, rfl, ?_⟩
  intro st gameId g0 h
  simp only [upgradeGuestGameToHybrid, h, saveHybridGuestGame, deleteGuestGame]
  exact lookup_setKey _ _ _

/-- Witness for the C10 theorem: upgrading the sample guest game (version
9) stores a hybrid record at version 1. -/
theorem convert_to_hybrid_resets_version_w :
    ((upgradeGuestGameToHybrid sampleGuestStore "g2" "fb1" 42).1.hybridGames.lookup
        sampleGuest.id) =
      some { convertToHybridGuestGame sampleGuest "fb1" 42 with
              deviceId := sampleGuestStore.deviceId } :=
  (convert_to_hybrid_resets_version sampleGuest "fb1" 42).2.2.2
    sampleGuestStore "g2" sampleGuest (by decide)

/-- Claim C5: the auto-advance decision never fires while elapsed time is
below the phase duration plus the grace window (grace 0 for the final
quarter, 5000 ms otherwise); when a quarter-to-break or break-to-quarter
transition is taken the new phase is running, and a transition to
fulltime leaves the clock stopped. -/
theorem auto_advance_grace_and_running (st : GameState) (s : Settings)
    (now : Int) (hel : 0 ≤ st.elapsedMs) :
    (∀ d : Int, phaseDurationMs (some st.phase) (some s) = .num d →
      totalElapsed st.isRunning st.phaseStartedAt st.elapsedMs now <
        d + graceMs st.phase s →
      autoAdvanceFires st s now = false) ∧
    graceMs st.phase s =
      (if st.phase = .quarter s.numQuarters then 0 else 5000) ∧
    (∀ i, st.phase = .quarter i → i < s.numQuarters →
      (advancePhaseState st s now).phase = .break_ i ∧
        (advancePhaseState st s now).isRunning = true) ∧
    (∀ i, st.phase = .break_ i →
      (advancePhaseState st s now).phase = .quarter (i + 1) ∧
        (advancePhaseState st s now).isRunning = true) ∧
    (nextPhase st.phase s = .fulltime →
      (advancePhaseState st s now).isRunning = false) := by
  refine ⟨?_, ?_, ?_, ?_, ?_⟩
  · intro d hd hlt
    cases hps : st.phaseStartedAt with
    | none => simp [autoAdvanceFires, hps]
    | some startedAt =>
      by_contra hfire
      rw [Bool.not_eq_false] at hfire
      simp only [autoAdvanceFires, hps, hd, Bool.and_eq_true,
        decide_eq_true_eq] at hfire
      obtain ⟨⟨hexp, hrun⟩, hge⟩ := hfire
      have hte : totalElapsed st.isRunning st.phaseStartedAt st.elapsedMs now =
          st.elapsedMs + max 0 (now - startedAt) := by
        simp [totalElapsed, hps, hrun]
      have hmax : now - startedAt ≤ max 0 (now - startedAt) :=
        le_max_right 0 (now - startedAt)
      omega
  · cases hp : st.phase with
    | quarter i =>
      by_cases h : i = s.numQuarters <;>
        simp [graceMs, isFinalQuarter, h]
    | break_ i => simp [graceMs, isFinalQuarter]
    | fulltime => simp [graceMs, isFinalQuarter]
  · intro i hp hi
    constructor <;> simp [advancePhaseState, nextPhase, hp, hi]
  · intro i hp
    constructor <;> simp [advancePhaseState, nextPhase, hp]
  · intro hnp
    cases hp : st.phase with
    | quarter i =>
      rw [hp] at hnp
      simp [advancePhaseState, hp, hnp]
    | break_ i =>
      rw [hp] at hnp
      simp [nextPhase] at hnp
    | fulltime =>
      simp [advancePhaseState, hp, nextPhase]

/-- Witness for the C5 theorem: at 604 s into a 600 s non-final quarter
(within the 5000 ms grace) no auto-advance fires. -/
theorem auto_advance_grace_w :
    autoAdvanceFires graceState sampleSettings 0 = false :=
  (auto_advance_grace_and_running graceState sampleSettings 0 (by decide)).1
    600000 (by decide) (by decide)

/-- Claim C4: enqueueing removes every previously queued item with the
same game id (any surviving entry for that id is the new item), keeps the
queue sorted by timestamp ascending, caps the length at 100 dropping the
oldest (the result is a suffix of the sorted uncapped queue), and when the
cap is not hit the new item is present exactly once. -/
theorem saveSyncQueue_dedupes_sorts_caps (st : Store) (item : SyncQueueItem) :
    (∀ j ∈ (saveSyncQueue st item).syncQueue,
      j.gameId = item.gameId → j = item) ∧
    List.Pairwise (fun a b => a.timestamp ≤ b.timestamp)
      (saveSyncQueue st item).syncQueue ∧
    (saveSyncQueue st item).syncQueue.length ≤ 100 ∧
    (saveSyncQueue st item).syncQueue <:+
      ((filterOutGame st.syncQueue item.gameId ++ [item]).mergeSort tsLe) ∧
    ((filterOutGame st.syncQueue item.gameId).length ≤ 99 →
      (saveSyncQueue st item).syncQueue.countP
        (fun j => j.gameId == item.gameId) = 1) := by
  have htrans : ∀ a b c : SyncQueueItem,
      tsLe a b = true → tsLe b c = true → tsLe a c = true := by
    intro a b c hab hbc
    simp only [tsLe, decide_eq_true_eq] at hab hbc ⊢
    omega
  have htotal : ∀ a b : SyncQueueItem, (tsLe a b || tsLe b a) = true := by
    intro a b
    simp only [tsLe, Bool.or_eq_true, decide_eq_true_eq]
    omega
  have hperm :=
    List.mergeSort_perm (filterOutGame st.syncQueue item.gameId ++ [item]) tsLe
  have hsorted :=
    List.sorted_mergeSort htrans htotal
      (filterOutGame st.syncQueue item.gameId ++ [item])
  have hq : (saveSyncQueue st item).syncQueue =
      if ((filterOutGame st.syncQueue item.gameId ++ [item]).mergeSort tsLe).length > 100
      then ((filterOutGame st.syncQueue item.gameId ++ [item]).mergeSort tsLe).drop
        (((filterOutGame st.syncQueue item.gameId ++ [item]).mergeSort tsLe).length - 100)
      else (filterOutGame st.syncQueue item.gameId ++ [item]).mergeSort tsLe := rfl
  rw [hq]
  have hsub :
      (if ((filterOutGame st.syncQueue item.gameId ++ [item]).mergeSort tsLe).length > 100
       then ((filterOutGame st.syncQueue item.gameId ++ [item]).mergeSort tsLe).drop
         (((filterOutGame st.syncQueue item.gameId ++ [item]).mergeSort tsLe).length - 100)
       else (filterOutGame st.syncQueue item.gameId ++ [item]).mergeSort tsLe).Sublist
        ((filterOutGame st.syncQueue item.gameId ++ [item]).mergeSort tsLe) := by
    split
    · exact List.drop_sublist _ _
    · exact List.Sublist.refl _
  refine ⟨?_, ?_, ?_, ?_, ?_⟩
  · intro j hj hgid
    have hj2 := hperm.mem_iff.mp (hsub.subset hj)
    rcases List.mem_append.1 hj2 with hf | hi
    · exfalso
      simp only [filterOutGame, List.mem_filter, bne_iff_ne] at hf
      exact hf.2 hgid
    · simpa using hi
  · refine List.Pairwise.sublist hsub (hsorted.imp ?_)
    intro a b h
    simpa [tsLe] using h
  · split
    · next h =>
      rw [List.length_drop]
      omega
    · next h =>
      omega
  · split
    · exact List.drop_suffix _ _
    · exact List.suffix_refl _
  · intro hle
    have hlen : ((filterOutGame st.syncQueue item.gameId ++ [item]).mergeSort tsLe).length =
        (filterOutGame st.syncQueue item.gameId).length + 1 := by
      rw [hperm.length_eq, List.length_append, List.length_singleton]
    rw [if_neg (by omega)]
    rw [hperm.countP_eq]
    rw [List.countP_append]
    have h0 : (filterOutGame st.syncQueue item.gameId).countP
        (fun j => j.gameId == item.gameId) = 0 := by
      rw [List.countP_eq_zero]
      intro j hj
      simp only [filterOutGame, List.mem_filter, bne_iff_ne] at hj
      simp [hj.2]
    rw [h0]
    simp [List.countP_cons]

/-- Witness for the C4 theorem: enqueueing into an empty queue leaves one
entry for the game id. -/
theorem saveSyncQueue_dedupes_sorts_caps_w :
    (saveSyncQueue emptyStore sampleQueueItem).syncQueue.countP
      (fun j => j.gameId == sampleQueueItem.gameId) = 1 :=
  (saveSyncQueue_dedupes_sorts_caps emptyStore sampleQueueItem).2.2.2.2
    (by decide)

/-- Claim C2: on a registered load with both a local and a remote copy,
the remote record is applied, overwriting the local cache and being
returned, exactly when it carries a version strictly greater than the
cached local version; otherwise the local record is returned and the
cache is untouched. -/
theorem loadGame_merge_by_version (st : Store) (db : RemoteDB) (id : String)
    (now : Int) (l : LocalGame) (r : RemoteGame)
    (hl : loadLocalGame st id = some l)
    (hr : db.games.lookup id = some r) :
    (fbNewer r l.version = false →
      loadGame false st db id true now = (st, some (.fromLocal l))) ∧
    (∀ rv, r.version = some rv → rv ≤ l.version.getD 0 →
      fbNewer r l.version = false) ∧
    (r.version = none → fbNewer r l.version = false) ∧
    (fbNewer r l.version = true →
      (∃ rv, r.version = some rv ∧ l.version.getD 0 < rv) ∧
      loadGame false st db id true now =
        ((updateLocalGame st id (remoteToLocalOverwrite r now)).1,
          some (.fromRemote r)) ∧
      ((loadGame false st db id true now).1.localGames.lookup r.id) =
        some (remoteAsLocal r now)) := by
  refine ⟨?_, ?_, ?_, ?_⟩
  · intro h
    simp [loadGame, hl, hr, h]
  · intro rv hrv hle
    simp only [fbNewer, hrv]
    simp only [Bool.and_eq_false_iff]
    right
    simpa using Nat.not_lt.mpr hle
  · intro h
    simp [fbNewer, h]
  · intro hfb
    have hrv : ∃ rv, r.version = some rv ∧ l.version.getD 0 < rv := by
      cases hv : r.version with
      | none => simp [fbNewer, hv] at hfb
      | some rv =>
        simp only [fbNewer, hv, Bool.and_eq_true, bne_iff_ne,
          decide_eq_true_eq] at hfb
        exact ⟨rv, rfl, hfb.2⟩
    refine ⟨hrv, ?_, ?_⟩
    · simp [loadGame, hl, hr, hfb]
    · have hload : loadGame false st db id true now =
          ((updateLocalGame st id (remoteToLocalOverwrite r now)).1,
            some (.fromRemote r)) := by
        simp [loadGame, hl, hr, hfb]
      rw [hload]
      simp only [updateLocalGame, hl]
      exact lookup_setKey _ _ _

/-- Witness for the C2 theorem: equal versions (5 = 5) leave the local
record in place and return it. -/
theorem loadGame_merge_by_version_w :
    loadGame false sampleLocalStore sampleRemoteDBEq "g3" true 7 =
      (sampleLocalStore, some (.fromLocal sampleLocal)) :=
  (loadGame_merge_by_version sampleLocalStore sampleRemoteDBEq "g3" 7
    sampleLocal sampleRemoteEq (by decide) (by decide)).1 (by decide)

/-- Claim C8: the update operations of the local store deep-merge the
state sub-object field by field — a partial state update that omits
centrePass (or any other state field) leaves that field unchanged — while
top-level fields are shallow-merged; the merged record is returned, and
an absent record yields none. -/
theorem update_deep_merge_preserves_state (st : Store) (id : String)
    (u : GuestGameUpdate) (su : GameStateUpdate)
    (hu : u.state = some su) (hcp : su.centrePass = none)
    (lu : LocalGameUpdate) (lsu : GameStateUpdate)
    (hlu : lu.state = some lsu) (hlcp : lsu.centrePass = none) :
    (∀ g, loadGuestGame st id = some g →
      (updateGuestGame st id u).2 = some (applyGuestUpdate g u) ∧
      (applyGuestUpdate g u).state = mergeState g.state su ∧
      (applyGuestUpdate g u).state.centrePass = g.state.centrePass ∧
      (su.phase = none → (applyGuestUpdate g u).state.phase = g.state.phase) ∧
      (su.isRunning = none →
        (applyGuestUpdate g u).state.isRunning = g.state.isRunning) ∧
      (su.phaseStartedAt = none →
        (applyGuestUpdate g u).state.phaseStartedAt = g.state.phaseStartedAt) ∧
      (su.elapsedMs = none →
        (applyGuestUpdate g u).state.elapsedMs = g.state.elapsedMs) ∧
      (su.scores = none → (applyGuestUpdate g u).state.scores = g.state.scores) ∧
      (su.quarterScores = none →
        (applyGuestUpdate g u).state.quarterScores = g.state.quarterScores) ∧
      (su.lastGoal = none →
        (applyGuestUpdate g u).state.lastGoal = g.state.lastGoal) ∧
      (u.location = none → (applyGuestUpdate g u).location = g.location) ∧
      (∀ loc, u.location = some loc → (applyGuestUpdate g u).location = loc)) ∧
    (loadGuestGame st id = none → (updateGuestGame st id u).2 = none) ∧
    (∀ g, loadLocalGame st id = some g →
      (updateLocalGame st id lu).2 = some (applyLocalUpdate g lu) ∧
      (applyLocalUpdate g lu).state.centrePass = g.state.centrePass) ∧
    (loadLocalGame st id = none → (updateLocalGame st id lu).2 = none) := by
  refine ⟨?_, ?_, ?_, ?_⟩
  · intro g hg
    refine ⟨by simp [updateGuestGame, hg], by simp [applyGuestUpdate, hu],
      ?_, ?_, ?_, ?_, ?_, ?_, ?_, ?_, ?_, ?_⟩
    · simp [applyGuestUpdate, hu, mergeState, hcp]
    · intro h
      simp [applyGuestUpdate, hu, mergeState, h]
    · intro h
      simp [applyGuestUpdate, hu, mergeState, h]
    · intro h
      simp [applyGuestUpdate, hu, mergeState, h]
    · intro h
      simp [applyGuestUpdate, hu, mergeState, h]
    · intro h
      simp [applyGuestUpdate, hu, mergeState, h]
    · intro h
      simp [applyGuestUpdate, hu, mergeState, h]
    · intro h
      simp [applyGuestUpdate, hu, mergeState, h]
    · intro h
      simp [applyGuestUpdate, h]
    · intro loc h
      simp [applyGuestUpdate, h]
  · intro h
    simp [updateGuestGame, h]
  · intro g hg
    refine ⟨by simp [updateLocalGame, hg], ?_⟩
    simp [applyLocalUpdate, hlu, mergeState, hlcp]
  · intro h
    simp [updateLocalGame, h]

/-- Witness for the C8 theorem: a scores-only update on the sample guest
game leaves centrePass at its stored value. -/
theorem update_deep_merge_preserves_state_w :
    (applyGuestUpdate sampleGuest scoresOnlyUpdate).state.centrePass =
      sampleGuest.state.centrePass :=
  ((update_deep_merge_preserves_state sampleGuestStore "g2"
      scoresOnlyUpdate { scores := some { A := 5, B := 3 } } rfl rfl
      { state := some { scores := some { A := 5, B := 3 } } }
      { scores := some { A := 5, B := 3 } } rfl rfl).1
    sampleGuest (by decide)).2.2.1

/-- Claim C1 evaluation: a coordinator update of a hybrid guest game at
version 5 with the remote write succeeding leaves the stored local record
at version 7 — the version advances by two (one bump in the merge, one in
the sync-confirmation call), not by one. -/
theorem updateGame_hybrid_double_increment :
    (((updateGame true sampleHybridStore sampleRemoteDB "g1" emptyGameUpdate
          true 100).1.hybridGames.lookup "g1").map (fun g => g.version)) =
        some 7 ∧
    sampleHybrid.version = 5 ∧
    (((updateGame true sampleHybridStore sampleRemoteDB "g1" emptyGameUpdate
          false 100).1.hybridGames.lookup "g1").map (fun g => g.version)) =
        some 6 := by
  exact ⟨by decide, rfl, by decide⟩

/-- Claim C3 evaluation: draining a queue whose single item fails its
remote operation still clears the queue (the failed item is dropped), and
draining an empty queue is a no-op. -/
theorem syncPendingChanges_drops_failed :
    (syncPendingChanges true (fun _ => false) 50 sampleQueueStore
        emptyRemoteDB).1.syncQueue = [] ∧
    sampleQueueStore.syncQueue = [sampleQueueItem] ∧
    (∀ (registered : Bool) (ok : SyncQueueItem → Bool) (now : Int)
        (db : RemoteDB),
      syncPendingChanges registered ok now emptyStore db = (emptyStore, db)) := by
  refine ⟨by decide, rfl, ?_⟩
  intro registered ok now db
  cases registered <;> simp [syncPendingChanges, emptyStore, clearSyncQueue]

/-- Claim C9 evaluation: an explicit coordinator delete of a hybrid guest
game (present both locally and remotely) reports failure and removes
neither the local hybrid record nor the remote document. -/
theorem deleteGame_hybrid_removes_nothing :
    deleteGame true true "uid" sampleHybridStore sampleRemoteDB "g1" true 100 =
      (sampleHybridStore, sampleRemoteDB, false) ∧
    (loadHybridGuestGame sampleHybridStore "g1").isSome = true ∧
    (sampleRemoteDB.games.lookup "g1").isSome = true := by
  decide

end Netball
